import Mathlib

/-!
Shallow embedding of the grubimage tool, covering:
- `src/config.rs` (configuration resolution from the `package.metadata.grubimage` table),
- `src/builder/mod.rs` (kernel build orchestration, artifact discovery, metadata caching),
- `src/bin/cargo-grubimage.rs` (the orchestrating `build` command: binary lookup and
  staging/output path derivation).

External collaborators (the TOML parser, the JSON parser of the structured build output,
the spawned child processes and the external metadata query) are modelled as explicit
inputs: a parsed TOML value, a line-parsing function, an execution function from a
command description to its captured output, and a query-result environment. All control
flow and all decisions of the repository's own code are translated directly from the
source.
-/

/-! ## TOML values (the `toml::Value` type as consumed by `src/config.rs`)

The `float` and `datetime` payloads are irrelevant here: no arm of the configuration
parser accepts them, they can only flow into the catch-all error. A `table` is the
sequence of key/value pairs in the order the `toml` crate's map iterates them
(sorted by key); the model takes that iteration sequence as given. -/

inductive Toml where
  | str (s : String)
  | int (n : Int)
  | float
  | bool (b : Bool)
  | datetime
  | arr (xs : List Toml)
  | table (kvs : List (String × Toml))

/-- `toml::Value::get`: map lookup on a table, `none` on every other variant. -/
def tomlGet (v : Toml) (key : String) : Option Toml :=
  match v with
  | .table kvs => kvs.lookup key
  | _ => none

/-- Rust `i64 as u32`: two's-complement truncation to the low 32 bits
(`src/config.rs` line 81, `timeout as u32`). -/
def i64_as_u32 (t : Int) : Nat := (t % (2 : Int) ^ 32).toNat

/-- Rust `i64 as i32`: two's-complement truncation to 32 bits
(`src/config.rs` line 84, `exit_code as i32`). -/
def i64_as_i32 (t : Int) : Int := (t + 2 ^ 31) % 2 ^ 32 - 2 ^ 31

/-! ## The configuration data model (`src/config.rs`) -/

/-- The parsed `package.metadata.grubimage` configuration (`Config` in `src/config.rs`).
`test_timeout` is a `u32` in the source; it is modelled as a `Nat` that is always the
result of the explicit 32-bit truncation `i64_as_u32`. `test_success_exit_code` is an
`i32`, modelled as an `Int` produced by `i64_as_i32`. -/
structure Config where
  build_command : List String
  run_command : List String
  run_args : Option (List String)
  test_args : Option (List String)
  test_timeout : Nat
  test_success_exit_code : Option Int
  test_no_reboot : Bool
deriving DecidableEq

/-- The intermediate builder (`ConfigBuilder` in `src/config.rs`, `#[derive(Default)]`:
every field starts as `None`). -/
structure ConfigBuilder where
  build_command : Option (List String) := none
  run_command : Option (List String) := none
  run_args : Option (List String) := none
  test_args : Option (List String) := none
  test_timeout : Option Nat := none
  test_success_exit_code : Option Int := none
  test_no_reboot : Option Bool := none
deriving DecidableEq

/-- The error cases of `read_config_inner`. The source uses `anyhow` messages; each
distinct failure site becomes one constructor:
- `invalidConfig v`: "grubimage configuration invalid: {:?}" (line 70),
- `negativeTimeout`: "test-timeout must not be negative" (line 78),
- `notStringArray prop`: "{} must be a list of strings" (line 119),
- `unexpectedKey k v`: "unexpected package.metadata.grubimage key ... with value ..."
  (lines 102-107). -/
inductive ConfigError where
  | invalidConfig (v : Toml)
  | negativeTimeout
  | notStringArray (prop : String)
  | unexpectedKey (k : String) (v : Toml)

/-- `parse_string_array` (`src/config.rs` lines 114-123): every element must be a
TOML string, otherwise the error names the property. -/
def parse_string_array (array : List Toml) (prop_name : String) :
    Except ConfigError (List String) :=
  match array with
  | [] => .ok []
  | .str s :: rest => (parse_string_array rest prop_name).map (fun tl => s :: tl)
  | _ :: _ => .error (.notStringArray prop_name)

/-- One iteration of the `for (key, value) in metadata` loop of `read_config_inner`
(`src/config.rs` lines 75-110). The source's two guarded `test-timeout` arms (negative
and non-negative) become a single arm with the guard as an `if`. -/
def applyEntry (config : ConfigBuilder) (key : String) (value : Toml) :
    Except ConfigError ConfigBuilder :=
  match key, value with
  | "test-timeout", .int timeout =>
      if timeout < 0 then .error .negativeTimeout
      else .ok { config with test_timeout := some (i64_as_u32 timeout) }
  | "test-success-exit-code", .int exit_code =>
      .ok { config with test_success_exit_code := some (i64_as_i32 exit_code) }
  | "build-command", .arr array =>
      (parse_string_array array "build-command").map
        (fun l => { config with build_command := some l })
  | "run-command", .arr array =>
      (parse_string_array array "run-command").map
        (fun l => { config with run_command := some l })
  | "run-args", .arr array =>
      (parse_string_array array "run-args").map
        (fun l => { config with run_args := some l })
  | "test-args", .arr array =>
      (parse_string_array array "test-args").map
        (fun l => { config with test_args := some l })
  | "test-no-reboot", .bool no_reboot =>
      .ok { config with test_no_reboot := some no_reboot }
  | k, v => .error (.unexpectedKey k v)

/-- The whole `for` loop of `read_config_inner`: fold `applyEntry` over the table's
iteration sequence, stopping at the first error. -/
def processEntries (config : ConfigBuilder) : List (String × Toml) →
    Except ConfigError ConfigBuilder
  | [] => .ok config
  | (k, v) :: rest =>
      match applyEntry config k v with
      | .error e => .error e
      | .ok c => processEntries c rest

/-- `impl From<ConfigBuilder> for Config` (`src/config.rs` lines 136-154): defaults
`["build"]`, `["qemu-system-i386", "-cdrom", "\x7b\x7d"]`, `60 * 5` seconds, `true`. -/
def Config.fromBuilder (s : ConfigBuilder) : Config :=
  { build_command := s.build_command.getD ["build"]
    run_command := s.run_command.getD ["qemu-system-i386", "-cdrom", "\x7b\x7d"]
    run_args := s.run_args
    test_args := s.test_args
    test_timeout := s.test_timeout.getD (60 * 5)
    test_success_exit_code := s.test_success_exit_code
    test_no_reboot := s.test_no_reboot.getD true }

/-- The nested lookup `cargo_toml.get("package").and_then(get "metadata").and_then
(get "grubimage")` (`src/config.rs` lines 60-63). -/
def grubimageMetadata (cargo_toml : Toml) : Option Toml :=
  ((tomlGet cargo_toml "package").bind (fun t => tomlGet t "metadata")).bind
    (fun t => tomlGet t "grubimage")

/-- `read_config_inner` (`src/config.rs` lines 47-112), starting from the parsed
`Cargo.toml` value (file reading and TOML parsing are external I/O preceding every
decision modelled here). -/
def read_config_inner (cargo_toml : Toml) : Except ConfigError Config :=
  match grubimageMetadata cargo_toml with
  | none => .ok (Config.fromBuilder {})
  | some metadata =>
      match metadata with
      | .table kvs => (processEntries {} kvs).map Config.fromBuilder
      | _ => .error (.invalidConfig metadata)

/-- `read_config` (`src/config.rs` lines 43-45). The `anyhow` context wrapper only
prepends a message to the error; the success/failure structure is `read_config_inner`'s. -/
def read_config (cargo_toml : Toml) : Except ConfigError Config :=
  read_config_inner cargo_toml

/-- Whether an entry hits the catch-all arm of the `read_config_inner` match:
the key is not a recognized key, or a recognized key carries a value whose top-level
type does not match its arm's pattern. -/
def unrecognizedEntry (k : String) (v : Toml) : Bool :=
  match k, v with
  | "test-timeout", .int _ => false
  | "test-success-exit-code", .int _ => false
  | "build-command", .arr _ => false
  | "run-command", .arr _ => false
  | "run-args", .arr _ => false
  | "test-args", .arr _ => false
  | "test-no-reboot", .bool _ => false
  | _, _ => true

/-- Whether an entry is accepted by the loop body (success of `applyEntry` does not
depend on the builder state, see `applyEntry_error_indep`). -/
def entryAccepts (k : String) (v : Toml) : Bool :=
  match applyEntry {} k v with
  | .ok _ => true
  | .error _ => false

/-- Helper for `containsSubstr`: does `pat` occur in `cs` (as a contiguous run)? -/
def strContainsAux (pat : List Char) (cs : List Char) : Bool :=
  match cs with
  | [] => pat.isEmpty
  | _ :: tl => pat.isPrefixOf cs || strContainsAux pat tl

/-- Substring test (Rust `str::contains` on a literal pattern), used to state that a
run-command token contains the image-path placeholder. -/
def containsSubstr (s pat : String) : Bool := strContainsAux pat.toList s.toList

example : read_config (Toml.table []) = .ok (Config.fromBuilder {}) := rfl

example : containsSubstr "\x7b\x7d" "\x7b\x7d" = true := by decide

example : read_config (Toml.table [("package", Toml.table [("metadata", Toml.table
    [("grubimage", Toml.table [("test-timeout", Toml.int (-1))])])])]) =
    .error .negativeTimeout := rfl

/-! ## Structured build output (the `json` crate's values, as used by `build_kernel`)

Only objects and strings are inspected by `src/builder/mod.rs`; the numeric payload is
irrelevant and kept as `Int`. -/

inductive Json where
  | null
  | bool (b : Bool)
  | num (n : Int)
  | str (s : String)
  | arr (xs : List Json)
  | obj (fields : List (String × Json))

/-- `json::JsonValue`'s `Index<&str>` as used by `artifact["executable"]`: the member of
an object, `Null` for a missing member and for every non-object value. -/
def jsonIndex (j : Json) (key : String) : Json :=
  match j with
  | .obj fields => (fields.lookup key).getD .null
  | _ => .null

/-- `JsonValue::take_string`: the payload of a string value, `none` otherwise (the
in-place replacement with `Null` is unobservable here, the record is discarded). -/
def takeString (j : Json) : Option String :=
  match j with
  | .str s => some s
  | _ => none

/-! ## The process model for `Builder::build_kernel`

The child process is an external collaborator; it is modelled as a function from the
spawn request (program, arguments, whether stdout/stderr were set to `inherit`) to the
result of `Command::output()`: `none` for a spawn failure, otherwise the exit status
and the captured streams. Captured stdout is carried as `Option String`: the result of
the `String::from_utf8` decoding the source applies to it (`none` = invalid UTF-8).
Captured stderr is kept as raw bytes, as the source does. -/

structure Cmd where
  program : String
  args : List String
  inheritStdio : Bool
deriving DecidableEq

structure CmdOutput where
  success : Bool
  stdout : Option String
  stderr : List Nat
deriving DecidableEq

/-- The error cases of `build_kernel` (`src/builder/error.rs` constructors as used in
`src/builder/mod.rs`): `ioFailed` is `BuildKernelError::Io` (the underlying OS error
payload is dropped), the UTF-8/JSON payloads are likewise dropped. -/
inductive BuildKernelError where
  | ioFailed (message : String)
  | buildFailed (stderr : List Nat)
  | buildJsonOutputInvalidUtf8
  | buildJsonOutputInvalidJson
deriving DecidableEq

/-- Rust `str::lines` on the decoded stdout: split at `\n`, strip one `\r` before each
`\n`, no empty final line for a trailing newline. `emitLine` finishes one line whose
characters are accumulated in reverse. -/
def emitLine (cur : List Char) : String :=
  String.mk (match cur with
    | '\r' :: tl => tl.reverse
    | _ => cur.reverse)

/-- Worker for `rustLines`: `cur` holds the current line's characters in reverse. -/
def rustLinesGo (cur : List Char) : List Char → List String
  | [] => if cur.isEmpty then [] else [String.mk cur.reverse]
  | '\n' :: rest => emitLine cur :: rustLinesGo [] rest
  | c :: rest => rustLinesGo (c :: cur) rest

/-- Rust `str::lines`. -/
def rustLines (s : String) : List String := rustLinesGo [] s.toList

example : rustLines "a\r\nb\n" = ["a", "b"] := by decide

example : rustLines "" = [] := by decide

example : rustLines "a\r" = ["a\r"] := by decide

/-- The artifact-collection loop of `build_kernel` (`src/builder/mod.rs` lines 117-127):
parse each line (`jsonParse` is the external `json::parse`; `none` = malformed record),
collect the `executable` member of each record that carries one as a string, in order;
a malformed record aborts with `BuildJsonOutputInvalidJson`. -/
def collectExecutables (jsonParse : String → Option Json) :
    List String → Except BuildKernelError (List String)
  | [] => .ok []
  | line :: rest =>
      match jsonParse line with
      | none => .error .buildJsonOutputInvalidJson
      | some artifact =>
          match takeString (jsonIndex artifact "executable") with
          | some executable => (collectExecutables jsonParse rest).map
              (fun tl => executable :: tl)
          | none => collectExecutables jsonParse rest

/-- The first build invocation's command (`src/builder/mod.rs` lines 86-92): the
configured build command plus the extra arguments; stdout/stderr are inherited exactly
when `quiet` is false. -/
def cmd1 (cargo : String) (config : Config) (args : List String) (quiet : Bool) : Cmd :=
  { program := cargo, args := config.build_command ++ args, inheritStdio := !quiet }

/-- The second build invocation's command (`src/builder/mod.rs` lines 104-107): the same
command and arguments plus `--message-format json`; output captured (never inherited). -/
def cmd2 (cargo : String) (config : Config) (args : List String) : Cmd :=
  { program := cargo, args := config.build_command ++ args ++ ["--message-format", "json"],
    inheritStdio := false }

/-- `Builder::build_kernel` (`src/builder/mod.rs` lines 74-130). `exec` is the external
process world; `cargo` is the resolved value of the `CARGO` environment override. The
`println!("Building kernel")` progress line is output-only and has no modelled effect. -/
def build_kernel (exec : Cmd → Option CmdOutput) (jsonParse : String → Option Json)
    (cargo : String) (args : List String) (config : Config) (quiet : Bool) :
    Except BuildKernelError (List String) :=
  match exec (cmd1 cargo config args quiet) with
  | none => .error (.ioFailed "failed to execute kernel build")
  | some output =>
      if !output.success then .error (.buildFailed output.stderr)
      else
        match exec (cmd2 cargo config args) with
        | none => .error (.ioFailed "failed to execute kernel build with json output")
        | some output2 =>
            if !output2.success then .error (.buildFailed output2.stderr)
            else
              match output2.stdout with
              | none => .error .buildJsonOutputInvalidUtf8
              | some text => collectExecutables jsonParse (rustLines text)

/-- The discovered artifact of one structured-output line: the `executable` member's
string payload of the parsed record, if any. -/
def execOfLine (jsonParse : String → Option Json) (line : String) : Option String :=
  (jsonParse line).bind (fun j => takeString (jsonIndex j "executable"))

/-! ## Project metadata and binary lookup (`src/builder/mod.rs` lines 148-168)

`cargo_metadata::Metadata` is modelled by the fields the source reads: the package
list, each package's targets and manifest path, each target's name and kind list. -/

structure Target where
  name : String
  kind : List String
deriving DecidableEq

structure Package where
  name : String
  manifest_path : String
  targets : List Target
deriving DecidableEq

structure Metadata where
  packages : List Package
deriving DecidableEq

/-- The predicate of `Builder::kernel_package_for_bin` (`src/builder/mod.rs` lines
153-157): the package has a target with the requested name whose kind list contains
`"bin"`. -/
def matchesBin (kernel_bin_name : String) (p : Package) : Bool :=
  p.targets.any (fun t => t.name == kernel_bin_name && t.kind.any (fun k => k == "bin"))

/-- The pure lookup inside `kernel_package_for_bin`: the first matching package of the
metadata's package list. -/
def find_kernel_package (metadata : Metadata) (kernel_bin_name : String) :
    Option Package :=
  metadata.packages.find? (matchesBin kernel_bin_name)

/-- The caller layer (`src/bin/cargo-grubimage.rs` lines 74-77): a `none` lookup result
becomes the explicit failure `Failed to find kernel binary in cargo metadata output`. -/
def locate_step (metadata : Metadata) (bin_name : String) : Except String Package :=
  match find_kernel_package metadata bin_name with
  | some p => .ok p
  | none => .error "Failed to find kernel binary in cargo metadata output"

/-! ## The builder's cached metadata (`src/builder/mod.rs` lines 17-20, 160-168)

The mutable `Builder` is modelled by explicit state passing; the external
`cargo metadata` invocation is a world that records how many times the query ran and
what the query returns for a manifest path. -/

/-- A filesystem path as its list of components. -/
structure RPath where
  components : List String
deriving DecidableEq

/-- The `Builder` struct: the resolved manifest path and the lazily-computed metadata
cache (`None` until first use). -/
structure BuilderState where
  manifest_path : RPath
  project_metadata : Option Metadata

/-- The external metadata-query world: `queryResult` is what
`cargo_metadata::MetadataCommand::new().manifest_path(p).exec()` returns, and
`queryCount` counts how many times that external command was actually run. -/
structure MetadataWorld where
  queryCount : Nat
  queryResult : RPath → Except String Metadata

/-- One actual run of the external metadata query. -/
def runMetadataQuery (manifest_path : RPath) (w : MetadataWorld) :
    Except String Metadata × MetadataWorld :=
  (w.queryResult manifest_path, { w with queryCount := w.queryCount + 1 })

/-- `Builder::project_metadata` (`src/builder/mod.rs` lines 160-168): return the cached
value if present; otherwise run the query, cache a successful result
(`get_or_insert`), and propagate a query error without caching. -/
def project_metadata (b : BuilderState) (w : MetadataWorld) :
    Except String Metadata × BuilderState × MetadataWorld :=
  match b.project_metadata with
  | some metadata => (.ok metadata, b, w)
  | none =>
      match runMetadataQuery b.manifest_path w with
      | (.error e, w2) => (.error e, b, w2)
      | (.ok metadata, w2) =>
          (.ok metadata, { b with project_metadata := some metadata }, w2)

/-- `Builder::kernel_package_for_bin` (`src/builder/mod.rs` lines 149-158): fetch (or
reuse) the project metadata, then find the first package owning the binary. -/
def kernel_package_for_bin (kernel_bin_name : String) (b : BuilderState)
    (w : MetadataWorld) : Except String (Option Package) × BuilderState × MetadataWorld :=
  match project_metadata b w with
  | (.ok metadata, b2, w2) => (.ok (find_kernel_package metadata kernel_bin_name), b2, w2)
  | (.error e, b2, w2) => (.error e, b2, w2)

/-! ## Staging and output path derivation (`src/bin/cargo-grubimage.rs` lines 54-90) -/

/-- Helper for `stemOf`: the characters before the last `.`, or `none` when there is
no `.`. -/
def dropAfterLastDot (cs : List Char) : Option (List Char) :=
  match cs with
  | [] => none
  | c :: tl =>
      match dropAfterLastDot tl with
      | some rest => some (c :: rest)
      | none => if c = '.' then some [] else none

/-- `Path::file_stem` on a file name: the part before the last `.`, the whole name when
there is no `.` or when the only `.` is a leading one (`.bashrc`). -/
def stemOf (name : String) : String :=
  match name.toList with
  | [] => name
  | c :: tl =>
      match dropAfterLastDot tl with
      | some rest => String.mk (c :: rest)
      | none => name

/-- `Path::parent` in the component model: drop the last component; `none` for the
empty path. -/
def RPath.parent (p : RPath) : Option RPath :=
  match p.components with
  | [] => none
  | _ => some ⟨p.components.dropLast⟩

/-- `Path::file_name` in the component model: the last component. -/
def RPath.fileName (p : RPath) : Option String := p.components.getLast?

/-- `Path::file_stem` in the component model. -/
def RPath.file_stem (p : RPath) : Option String := p.fileName.map stemOf

/-- `Path::join` with a single component. -/
def RPath.join (p : RPath) (s : String) : RPath := ⟨p.components ++ [s]⟩

/-- The pure path derivation of the `build` command (`src/bin/cargo-grubimage.rs` lines
54-80): from one built executable, the build output directory (`parent`), the binary
name (`file_stem`), the staging directory `out_dir/isofiles` and the image path
`out_dir/grubimage-<bin_name>.iso`; `none` models the explicit `executable has no
parent path` / `no file stem` failures. -/
def derive_paths (executable : RPath) : Option (RPath × String × RPath × RPath) :=
  match executable.parent, executable.file_stem with
  | some out_dir, some bin_name =>
      some (out_dir, bin_name, out_dir.join "isofiles",
        out_dir.join ("grubimage-" ++ bin_name ++ ".iso"))
  | _, _ => none

example : derive_paths ⟨["target", "debug", "kernel"]⟩ =
    some (⟨["target", "debug"]⟩, "kernel", ⟨["target", "debug", "isofiles"]⟩,
      ⟨["target", "debug", "grubimage-kernel.iso"]⟩) := by decide

/-! ## Helper lemmas -/

theorem except_map_eq_error {α β ε : Type} (f : α → β) (x : Except ε α) (e : ε) :
    x.map f = .error e ↔ x = .error e := by
  cases x <;> simp [Except.map]

theorem collectExecutables_ok (jsonParse : String → Option Json) (ls : List String)
    (h : ls.all (fun l => (jsonParse l).isSome) = true) :
    collectExecutables jsonParse ls = .ok (ls.filterMap (execOfLine jsonParse)) := by
  induction ls with
  | nil => rfl
  | cons line rest ih =>
      simp only [List.all_cons, Bool.and_eq_true] at h
      obtain ⟨hline, hrest⟩ := h
      obtain ⟨j, hj⟩ := Option.isSome_iff_exists.mp hline
      simp only [collectExecutables, hj, List.filterMap_cons, execOfLine, Option.bind]
      cases hts : takeString (jsonIndex j "executable") with
      | none => simpa [hts] using ih hrest
      | some executable => simp [hts, ih hrest, Except.map]

theorem collectExecutables_err (jsonParse : String → Option Json) (ls : List String)
    (h : ls.any (fun l => (jsonParse l).isNone) = true) :
    collectExecutables jsonParse ls = .error .buildJsonOutputInvalidJson := by
  induction ls with
  | nil => simp at h
  | cons line rest ih =>
      simp only [List.any_cons, Bool.or_eq_true] at h
      cases hline : jsonParse line with
      | none => simp [collectExecutables, hline]
      | some j =>
          have hrest : rest.any (fun l => (jsonParse l).isNone) = true := by
            rcases h with h | h
            · rw [hline] at h; simp [Option.isNone] at h
            · exact h
          simp only [collectExecutables, hline]
          cases hts : takeString (jsonIndex j "executable") with
          | none => exact ih hrest
          | some executable => simp [ih hrest, Except.map]

theorem length_filterMap_isSome {α β : Type} (f : α → Option β) (l : List α) :
    (l.filterMap f).length = (l.filter (fun x => (f x).isSome)).length := by
  induction l with
  | nil => rfl
  | cons x xs ih =>
      cases hx : f x <;> simp [List.filterMap_cons, List.filter_cons, hx, ih]

theorem applyEntry_error_indep (c1 c2 : ConfigBuilder) (k : String) (v : Toml)
    (e : ConfigError) (h : applyEntry c1 k v = .error e) : applyEntry c2 k v = .error e := by
  unfold applyEntry at h ⊢
  split at h <;>
    first
      | (split_ifs at h ⊢ <;> simp_all)
      | simp_all [except_map_eq_error]

theorem applyEntry_unrec (c : ConfigBuilder) (k : String) (v : Toml)
    (h : unrecognizedEntry k v = true) :
    applyEntry c k v = .error (.unexpectedKey k v) := by
  unfold applyEntry
  split <;> simp_all [unrecognizedEntry]

theorem applyEntry_negTimeout (c : ConfigBuilder) (t : Int) (h : t < 0) :
    applyEntry c "test-timeout" (.int t) = .error .negativeTimeout := by
  simp [applyEntry, h]

theorem entryAccepts_ok (c : ConfigBuilder) (k : String) (v : Toml)
    (h : entryAccepts k v = true) : ∃ c2, applyEntry c k v = .ok c2 := by
  cases hc : applyEntry c k v with
  | ok c2 => exact ⟨c2, rfl⟩
  | error e =>
      have := applyEntry_error_indep c {} k v e hc
      simp [entryAccepts, this] at h

theorem processEntries_append (c : ConfigBuilder) (l1 l2 : List (String × Toml)) :
    processEntries c (l1 ++ l2) =
      (processEntries c l1).bind (fun c2 => processEntries c2 l2) := by
  induction l1 generalizing c with
  | nil => simp [processEntries, Except.bind]
  | cons kv rest ih =>
      obtain ⟨k, v⟩ := kv
      simp only [List.cons_append, processEntries]
      cases applyEntry c k v with
      | error e => simp [Except.bind]
      | ok c2 => exact ih c2

theorem processEntries_ok_of_accepts (c : ConfigBuilder) (l : List (String × Toml))
    (h : l.all (fun p => entryAccepts p.1 p.2) = true) :
    ∃ c2, processEntries c l = .ok c2 := by
  induction l generalizing c with
  | nil => exact ⟨c, rfl⟩
  | cons kv rest ih =>
      simp only [List.all_cons, Bool.and_eq_true] at h
      obtain ⟨c2, hc2⟩ := entryAccepts_ok c kv.1 kv.2 h.1
      obtain ⟨c3, hc3⟩ := ih c2 h.2
      exact ⟨c3, by simpa [processEntries, hc2] using hc3⟩

theorem find_first_eq {α : Type} (p : α → Bool) (pre post : List α) (a : α)
    (ha : p a = true) (hpre : ∀ q ∈ pre, p q = false) :
    (pre ++ a :: post).find? p = some a := by
  induction pre with
  | nil => simp [List.find?_cons_of_pos _ ha]
  | cons x xs ih =>
      have hx : p x = false := hpre x (by simp)
      rw [List.cons_append, List.find?_cons_of_neg _ (by simp [hx])]
      exact ih (fun q hq => hpre q (by simp [hq]))

theorem find_first {α : Type} (p : α → Bool) (l : List α) (a : α)
    (h : l.find? p = some a) :
    p a = true ∧ ∃ pre post, l = pre ++ a :: post ∧ ∀ q ∈ pre, p q = false := by
  induction l with
  | nil => simp [List.find?] at h
  | cons x xs ih =>
      cases hx : p x with
      | true =>
          rw [List.find?_cons_of_pos _ hx] at h
          cases h
          exact ⟨hx, [], xs, rfl, by simp⟩
      | false =>
          rw [List.find?_cons_of_neg _ (by simp [hx])] at h
          obtain ⟨hpa, pre, post, heq, hpre⟩ := ih h
          refine ⟨hpa, x :: pre, post, by simp [heq], ?_⟩
          intro q hq
          rcases List.mem_cons.mp hq with rfl | hq
          · exact hx
          · exact hpre q hq

/-! ## Claims -/

/-- C1: For every structured build-output stream whose decoded text contains N lines
bearing an `executable` field and M lines without it, a successful call of
`build_kernel` returns exactly the N artifact paths, in the order the
`executable`-bearing lines appeared; lines without that field contribute nothing, and
a line that is not a valid structured record makes `build_kernel` fail with the
invalid-record error instead of returning any artifacts. -/
theorem c1_build_kernel_artifacts
    (exec : Cmd → Option CmdOutput) (jsonParse : String → Option Json)
    (cargo : String) (args : List String) (config : Config) (quiet : Bool)
    (out1 out2 : CmdOutput) (text : String)
    (h1 : exec (cmd1 cargo config args quiet) = some out1)
    (hs1 : out1.success = true)
    (h2 : exec (cmd2 cargo config args) = some out2)
    (hs2 : out2.success = true)
    (hd : out2.stdout = some text) :
    ((rustLines text).all (fun l => (jsonParse l).isSome) = true →
        build_kernel exec jsonParse cargo args config quiet =
          .ok ((rustLines text).filterMap (execOfLine jsonParse)) ∧
        ((rustLines text).filterMap (execOfLine jsonParse)).length =
          ((rustLines text).filter (fun l => (execOfLine jsonParse l).isSome)).length) ∧
    ((rustLines text).any (fun l => (jsonParse l).isNone) = true →
        build_kernel exec jsonParse cargo args config quiet =
          .error .buildJsonOutputInvalidJson) := by
  have hbk : build_kernel exec jsonParse cargo args config quiet =
      collectExecutables jsonParse (rustLines text) := by
    simp [build_kernel, h1, h2, hs1, hs2, hd]
  constructor
  · intro hall
    exact ⟨hbk.trans (collectExecutables_ok _ _ hall), length_filterMap_isSome _ _⟩
  · intro hany
    exact hbk.trans (collectExecutables_err _ _ hany)

/-- Witness for C1: a three-line stream with two `executable`-bearing records and one
record without the field yields exactly those two paths in order. -/
theorem c1_build_kernel_artifacts_witness :
    build_kernel
      (fun c => if c.inheritStdio then some ⟨true, some "", []⟩
                else some ⟨true, some "A\nB\nC", []⟩)
      (fun l => if l = "A" then some (.obj [("executable", .str "/t/a")])
                else if l = "B" then some (.obj [("reason", .str "r")])
                else if l = "C" then some (.obj [("executable", .str "/t/c")])
                else none)
      "cargo" [] (Config.fromBuilder {}) false = .ok ["/t/a", "/t/c"] := by
  have h := (c1_build_kernel_artifacts
      (fun c => if c.inheritStdio then some ⟨true, some "", []⟩
                else some ⟨true, some "A\nB\nC", []⟩)
      (fun l => if l = "A" then some (.obj [("executable", .str "/t/a")])
                else if l = "B" then some (.obj [("reason", .str "r")])
                else if l = "C" then some (.obj [("executable", .str "/t/c")])
                else none)
      "cargo" [] (Config.fromBuilder {}) false
      ⟨true, some "", []⟩ ⟨true, some "A\nB\nC", []⟩ "A\nB\nC"
      rfl rfl rfl rfl rfl).1 (by decide)
  exact h.1.trans (by rfl)

/-- C2: For every build invocation (first or second) whose child process exits with
non-zero status, `build_kernel` returns a `BuildFailed` error that carries the
standard-error bytes captured from that invocation verbatim, and returns no
artifacts; this holds for both the quiet and the non-quiet setting (`quiet` is
universally quantified). -/
theorem c2_build_failed_stderr
    (exec : Cmd → Option CmdOutput) (jsonParse : String → Option Json)
    (cargo : String) (args : List String) (config : Config) (quiet : Bool)
    (out1 : CmdOutput)
    (h1 : exec (cmd1 cargo config args quiet) = some out1) :
    (out1.success = false →
        build_kernel exec jsonParse cargo args config quiet =
          .error (.buildFailed out1.stderr) ∧
        ∀ arts : List String,
          build_kernel exec jsonParse cargo args config quiet ≠ .ok arts) ∧
    (∀ out2 : CmdOutput, out1.success = true →
        exec (cmd2 cargo config args) = some out2 → out2.success = false →
        build_kernel exec jsonParse cargo args config quiet =
          .error (.buildFailed out2.stderr) ∧
        ∀ arts : List String,
          build_kernel exec jsonParse cargo args config quiet ≠ .ok arts) := by
  constructor
  · intro hf
    have hb : build_kernel exec jsonParse cargo args config quiet =
        .error (.buildFailed out1.stderr) := by
      simp [build_kernel, h1, hf]
    exact ⟨hb, fun arts h => by simp [hb] at h⟩
  · intro out2 hs1 h2 hf2
    have hb : build_kernel exec jsonParse cargo args config quiet =
        .error (.buildFailed out2.stderr) := by
      simp [build_kernel, h1, hs1, h2, hf2]
    exact ⟨hb, fun arts h => by simp [hb] at h⟩

/-- Witness for C2: a first invocation exiting non-zero with captured stderr bytes
`[101, 114, 114]` makes `build_kernel` fail with exactly those bytes. -/
theorem c2_build_failed_stderr_witness :
    build_kernel (fun _ => some ⟨false, some "", [101, 114, 114]⟩) (fun _ => none)
      "cargo" [] (Config.fromBuilder {}) true =
      .error (.buildFailed [101, 114, 114]) :=
  ((c2_build_failed_stderr (fun _ => some ⟨false, some "", [101, 114, 114]⟩)
      (fun _ => none) "cargo" [] (Config.fromBuilder {}) true
      ⟨false, some "", [101, 114, 114]⟩ rfl).1 rfl).1

/-- C3: For every valid manifest that lacks the `package.metadata.grubimage` table,
`read_config` succeeds with exactly the documented defaults: build command
`["build"]`, test timeout 300 seconds, test-no-reboot true, and a run command in
which some token contains the placeholder substring `{}`. -/
theorem c3_default_config (cargo_toml : Toml)
    (h : grubimageMetadata cargo_toml = none) :
    read_config cargo_toml = .ok (Config.fromBuilder {}) ∧
    (Config.fromBuilder {}).build_command = ["build"] ∧
    (Config.fromBuilder {}).test_timeout = 300 ∧
    (Config.fromBuilder {}).test_no_reboot = true ∧
    (Config.fromBuilder {}).run_command.any
      (fun tok => containsSubstr tok "\x7b\x7d") = true := by
  refine ⟨?_, by decide, by decide, by decide, by decide⟩
  simp [read_config, read_config_inner, h]

/-- Witness for C3: a manifest with no `package` table at all gets the defaults. -/
theorem c3_default_config_witness :
    read_config (Toml.table []) = .ok (Config.fromBuilder {}) ∧
    (Config.fromBuilder {}).build_command = ["build"] ∧
    (Config.fromBuilder {}).test_timeout = 300 ∧
    (Config.fromBuilder {}).test_no_reboot = true ∧
    (Config.fromBuilder {}).run_command.any
      (fun tok => containsSubstr tok "\x7b\x7d") = true :=
  c3_default_config (Toml.table []) rfl

/-- C4 (amended): For every manifest whose configuration table contains a
`test-timeout` entry with a negative integer value, `read_config` fails with a
configuration error and never returns a configuration value; the error is the
specific negative-timeout error — a constructor distinct from the generic
unexpected-key error — whenever the entries preceding `test-timeout` in table
iteration order are themselves accepted (with an earlier invalid entry, that
entry's error is reported instead). -/
theorem c4_negative_timeout_rejected (cargo_toml : Toml)
    (pre post : List (String × Toml)) (t : Int)
    (hmeta : grubimageMetadata cargo_toml =
      some (.table (pre ++ ("test-timeout", .int t) :: post)))
    (hneg : t < 0) :
    (∃ e, read_config cargo_toml = .error e) ∧
    (pre.all (fun p => entryAccepts p.1 p.2) = true →
      read_config cargo_toml = .error .negativeTimeout) ∧
    (∀ k v, ConfigError.negativeTimeout = ConfigError.unexpectedKey k v → False) := by
  have hrc : read_config cargo_toml =
      (processEntries {} (pre ++ ("test-timeout", .int t) :: post)).map
        Config.fromBuilder := by
    simp [read_config, read_config_inner, hmeta]
  have hsplit := processEntries_append {} pre (("test-timeout", .int t) :: post)
  refine ⟨?_, ?_, fun k v h => ConfigError.noConfusion h⟩
  · cases hpre : processEntries {} pre with
    | error e =>
        refine ⟨e, ?_⟩
        rw [hrc, hsplit, hpre]
        rfl
    | ok c2 =>
        refine ⟨.negativeTimeout, ?_⟩
        rw [hrc, hsplit, hpre]
        simp [Except.bind, processEntries, applyEntry_negTimeout c2 t hneg, Except.map]
  · intro hacc
    obtain ⟨c2, hc2⟩ := processEntries_ok_of_accepts {} pre hacc
    rw [hrc, hsplit, hc2]
    simp [Except.bind, processEntries, applyEntry_negTimeout c2 t hneg, Except.map]

/-- Counterexample for C4 as stated: a configuration table holding both an
unrecognized key `a` (which sorts before `test-timeout` and is therefore iterated
first) and a negative `test-timeout` fails with the generic unexpected-key error, not
with the negative-timeout error the claim promises. -/
theorem c4_negative_timeout_counterexample :
    read_config (Toml.table [("package", Toml.table [("metadata", Toml.table
        [("grubimage", Toml.table [("a", Toml.bool true),
          ("test-timeout", Toml.int (-1))])])])]) =
      .error (.unexpectedKey "a" (Toml.bool true)) ∧
    ((-1 : Int) < 0) ∧
    (ConfigError.unexpectedKey "a" (Toml.bool true) = ConfigError.negativeTimeout →
      False) :=
  ⟨rfl, by decide, fun h => ConfigError.noConfusion h⟩

/-- Witness for C4 (amended): a table whose only entry is a negative `test-timeout`
fails with exactly the negative-timeout error. -/
theorem c4_negative_timeout_rejected_witness :
    read_config (Toml.table [("package", Toml.table [("metadata", Toml.table
        [("grubimage", Toml.table [("test-timeout", Toml.int (-3))])])])]) =
      .error .negativeTimeout :=
  (c4_negative_timeout_rejected
    (Toml.table [("package", Toml.table [("metadata", Toml.table
      [("grubimage", Toml.table [("test-timeout", Toml.int (-3))])])])])
    [] [] (-3) rfl (by decide)).2.1 (by decide)

/-- C5 (amended): For every manifest whose configuration table contains an entry that
matches no recognized key/value-type pair, `read_config` fails and returns no
(partial) configuration; the error names that entry's key and value whenever the
entries preceding it in table iteration order are accepted (with several offending
entries, the first one in iteration order is the one named). -/
theorem c5_unexpected_key_rejected (cargo_toml : Toml)
    (pre post : List (String × Toml)) (k : String) (v : Toml)
    (hmeta : grubimageMetadata cargo_toml = some (.table (pre ++ (k, v) :: post)))
    (hunrec : unrecognizedEntry k v = true) :
    (∃ e, read_config cargo_toml = .error e) ∧
    (pre.all (fun p => entryAccepts p.1 p.2) = true →
      read_config cargo_toml = .error (.unexpectedKey k v)) := by
  have hrc : read_config cargo_toml =
      (processEntries {} (pre ++ (k, v) :: post)).map Config.fromBuilder := by
    simp [read_config, read_config_inner, hmeta]
  have hsplit := processEntries_append {} pre ((k, v) :: post)
  constructor
  · cases hpre : processEntries {} pre with
    | error e =>
        refine ⟨e, ?_⟩
        rw [hrc, hsplit, hpre]
        rfl
    | ok c2 =>
        refine ⟨.unexpectedKey k v, ?_⟩
        rw [hrc, hsplit, hpre]
        simp [Except.bind, processEntries, applyEntry_unrec c2 k v hunrec, Except.map]
  · intro hacc
    obtain ⟨c2, hc2⟩ := processEntries_ok_of_accepts {} pre hacc
    rw [hrc, hsplit, hc2]
    simp [Except.bind, processEntries, applyEntry_unrec c2 k v hunrec, Except.map]

/-- Counterexample for C5 as stated: with two unrecognized keys `a` and `z`, the call
fails naming `a` — so for the offending entry `z` the claim's promise ("an error
naming that key and its value") does not hold. -/
theorem c5_unexpected_key_counterexample :
    read_config (Toml.table [("package", Toml.table [("metadata", Toml.table
        [("grubimage", Toml.table [("a", Toml.bool true),
          ("z", Toml.bool true)])])])]) =
      .error (.unexpectedKey "a" (Toml.bool true)) ∧
    unrecognizedEntry "z" (Toml.bool true) = true ∧
    (ConfigError.unexpectedKey "a" (Toml.bool true) =
        ConfigError.unexpectedKey "z" (Toml.bool true) → False) :=
  ⟨rfl, rfl, fun h => by
    injection h with h1 h2
    exact absurd h1 (by decide)⟩

/-- Witness for C5 (amended): a table whose only entry is the unrecognized key
`bogus` fails naming `bogus` and its value. -/
theorem c5_unexpected_key_rejected_witness :
    read_config (Toml.table [("package", Toml.table [("metadata", Toml.table
        [("grubimage", Toml.table [("bogus", Toml.int 1)])])])]) =
      .error (.unexpectedKey "bogus" (Toml.int 1)) :=
  (c5_unexpected_key_rejected
    (Toml.table [("package", Toml.table [("metadata", Toml.table
      [("grubimage", Toml.table [("bogus", Toml.int 1)])])])])
    [] [] "bogus" (Toml.int 1) rfl rfl).2 (by decide)

/-- C6: For every binary name, `kernel_package_for_bin`'s lookup returns the first
package in the project metadata's package list that has a target of kind `bin` whose
name exactly equals the requested name: whenever the package list decomposes as
`pre ++ p :: post` with `p` matching and nothing in `pre` matching, the lookup
returns exactly that `p` (and the caller proceeds with it); conversely a returned
package is always such a first match. If no package matches, the lookup returns
`none` (not an error), and the caller layer turns `none` into the explicit
descriptive failure. -/
theorem c6_kernel_package_lookup (metadata : Metadata) (name : String) :
    (∀ pre p post, metadata.packages = pre ++ p :: post →
        matchesBin name p = true → (∀ q ∈ pre, matchesBin name q = false) →
        find_kernel_package metadata name = some p ∧
        locate_step metadata name = .ok p) ∧
    (∀ p, find_kernel_package metadata name = some p →
        matchesBin name p = true ∧
        ∃ pre post, metadata.packages = pre ++ p :: post ∧
          ∀ q ∈ pre, matchesBin name q = false) ∧
    ((∀ p ∈ metadata.packages, matchesBin name p = false) →
        find_kernel_package metadata name = none) ∧
    (find_kernel_package metadata name = none →
        locate_step metadata name =
          .error "Failed to find kernel binary in cargo metadata output") := by
  refine ⟨?_, fun p h => find_first _ _ _ h, ?_, ?_⟩
  · intro pre p post heq hp hpre
    have hfind : find_kernel_package metadata name = some p := by
      rw [find_kernel_package, heq]
      exact find_first_eq _ _ _ _ hp hpre
    exact ⟨hfind, by simp [locate_step, hfind]⟩
  · intro h
    rw [find_kernel_package, List.find?_eq_none]
    intro x hx
    simp [h x hx]
  · intro h
    simp [locate_step, h]

/-- Witness for C6: in a two-package workspace whose first package has only a `lib`
target and whose second owns the `bin` target `kernel`, the lookup returns the
second package and the caller proceeds with it; and in a workspace without the
binary, the lookup yields `none` and the caller produces the descriptive error. -/
theorem c6_kernel_package_lookup_witness :
    (find_kernel_package
        ⟨[⟨"other", "/ws/other/Cargo.toml", [⟨"other", ["lib"]⟩]⟩,
          ⟨"kernel", "/ws/kernel/Cargo.toml", [⟨"kernel", ["bin"]⟩]⟩]⟩ "kernel" =
      some ⟨"kernel", "/ws/kernel/Cargo.toml", [⟨"kernel", ["bin"]⟩]⟩ ∧
    locate_step
        ⟨[⟨"other", "/ws/other/Cargo.toml", [⟨"other", ["lib"]⟩]⟩,
          ⟨"kernel", "/ws/kernel/Cargo.toml", [⟨"kernel", ["bin"]⟩]⟩]⟩ "kernel" =
      .ok ⟨"kernel", "/ws/kernel/Cargo.toml", [⟨"kernel", ["bin"]⟩]⟩) ∧
    locate_step ⟨[⟨"other", "/ws/other/Cargo.toml", [⟨"other", ["lib"]⟩]⟩]⟩ "kernel" =
      .error "Failed to find kernel binary in cargo metadata output" :=
  ⟨(c6_kernel_package_lookup
      ⟨[⟨"other", "/ws/other/Cargo.toml", [⟨"other", ["lib"]⟩]⟩,
        ⟨"kernel", "/ws/kernel/Cargo.toml", [⟨"kernel", ["bin"]⟩]⟩]⟩ "kernel").1
      [⟨"other", "/ws/other/Cargo.toml", [⟨"other", ["lib"]⟩]⟩]
      ⟨"kernel", "/ws/kernel/Cargo.toml", [⟨"kernel", ["bin"]⟩]⟩ []
      rfl (by decide) (by decide),
    (c6_kernel_package_lookup
      ⟨[⟨"other", "/ws/other/Cargo.toml", [⟨"other", ["lib"]⟩]⟩]⟩ "kernel").2.2.2
      (by decide)⟩

/-- C7: Project metadata is computed at most once per `Builder` instance: the first
access runs the external metadata query (incrementing the world's invocation count
by one) and stores the result; a subsequent access — in particular a second call to
`kernel_package_for_bin` — returns the stored value, leaves the builder unchanged
and leaves the world untouched (no re-invocation), whatever the query would now
return. -/
theorem c7_metadata_cached (b : BuilderState) (w w2 : MetadataWorld) (m : Metadata)
    (name : String)
    (hnone : b.project_metadata = none)
    (hq : w.queryResult b.manifest_path = .ok m) :
    project_metadata b w =
      (.ok m, { b with project_metadata := some m },
        { w with queryCount := w.queryCount + 1 }) ∧
    project_metadata { b with project_metadata := some m } w2 =
      (.ok m, { b with project_metadata := some m }, w2) ∧
    kernel_package_for_bin name { b with project_metadata := some m } w2 =
      (.ok (find_kernel_package m name), { b with project_metadata := some m }, w2) := by
  refine ⟨?_, ?_, ?_⟩
  · simp [project_metadata, hnone, runMetadataQuery, hq]
  · simp [project_metadata]
  · simp [kernel_package_for_bin, project_metadata]

/-- Witness for C7: a fresh builder, a world answering the query, and a second-call
world that would now fail the query — the cached value is still returned and the
second world is untouched. -/
theorem c7_metadata_cached_witness :
    project_metadata ⟨⟨["proj", "Cargo.toml"]⟩, none⟩ ⟨0, fun _ => .ok ⟨[]⟩⟩ =
      (.ok ⟨[]⟩, ⟨⟨["proj", "Cargo.toml"]⟩, some ⟨[]⟩⟩, ⟨1, fun _ => .ok ⟨[]⟩⟩) ∧
    project_metadata ⟨⟨["proj", "Cargo.toml"]⟩, some ⟨[]⟩⟩
        ⟨1, fun _ => .error "query now unavailable"⟩ =
      (.ok ⟨[]⟩, ⟨⟨["proj", "Cargo.toml"]⟩, some ⟨[]⟩⟩,
        ⟨1, fun _ => .error "query now unavailable"⟩) ∧
    kernel_package_for_bin "kernel" ⟨⟨["proj", "Cargo.toml"]⟩, some ⟨[]⟩⟩
        ⟨1, fun _ => .error "query now unavailable"⟩ =
      (.ok (find_kernel_package ⟨[]⟩ "kernel"), ⟨⟨["proj", "Cargo.toml"]⟩, some ⟨[]⟩⟩,
        ⟨1, fun _ => .error "query now unavailable"⟩) :=
  c7_metadata_cached ⟨⟨["proj", "Cargo.toml"]⟩, none⟩ ⟨0, fun _ => .ok ⟨[]⟩⟩
    ⟨1, fun _ => .error "query now unavailable"⟩ ⟨[]⟩ "kernel" rfl rfl

/-- C8: For every built executable path whose file stem is `B` and whose parent
directory is `D`, the orchestrating caller derives the staging directory as
`D/isofiles` and the output image path as `D/grubimage-B.iso`: the image file name is
a deterministic function of the binary name, placed alongside the build output
directory. -/
theorem c8_image_paths (executable out_dir : RPath) (B : String)
    (hpar : executable.parent = some out_dir)
    (hstem : executable.file_stem = some B) :
    derive_paths executable =
      some (out_dir, B, ⟨out_dir.components ++ ["isofiles"]⟩,
        ⟨out_dir.components ++ ["grubimage-" ++ B ++ ".iso"]⟩) := by
  simp [derive_paths, hpar, hstem, RPath.join]

/-- Witness for C8: the executable `target/debug/kernel` stages into
`target/debug/isofiles` and images to `target/debug/grubimage-kernel.iso`. -/
theorem c8_image_paths_witness :
    derive_paths ⟨["target", "debug", "kernel"]⟩ =
      some (⟨["target", "debug"]⟩, "kernel", ⟨["target", "debug", "isofiles"]⟩,
        ⟨["target", "debug", "grubimage-kernel.iso"]⟩) :=
  c8_image_paths ⟨["target", "debug", "kernel"]⟩ ⟨["target", "debug"]⟩ "kernel" rfl rfl

/-- C9: For manifests whose `test-timeout` value is a non-negative integer (including
values above `2^32 - 1`), `read_config` succeeds and stores the value truncated
modulo `2^32`; a `test-success-exit-code` of any magnitude is likewise stored after
two's-complement truncation to 32 bits — out-of-range values are not rejected. -/
theorem c9_numeric_truncation (t ec : Int) (ht : 0 ≤ t) :
    read_config (Toml.table [("package", Toml.table [("metadata", Toml.table
        [("grubimage", Toml.table [("test-timeout", Toml.int t)])])])]) =
      .ok { Config.fromBuilder {} with test_timeout := (t % 2 ^ 32).toNat } ∧
    read_config (Toml.table [("package", Toml.table [("metadata", Toml.table
        [("grubimage", Toml.table [("test-success-exit-code", Toml.int ec)])])])]) =
      .ok { Config.fromBuilder {} with
        test_success_exit_code := some ((ec + 2 ^ 31) % 2 ^ 32 - 2 ^ 31) } := by
  constructor
  · simp [read_config, read_config_inner, grubimageMetadata, tomlGet, processEntries,
      applyEntry, not_lt.mpr ht, i64_as_u32, Config.fromBuilder, Except.map]
  · simp [read_config, read_config_inner, grubimageMetadata, tomlGet, processEntries,
      applyEntry, i64_as_i32, Config.fromBuilder, Except.map]

/-- Witness for C9: `test-timeout = 2^32` (exceeding `u32`) is accepted and stored as
`0`; `test-success-exit-code = 2^31` (exceeding `i32`) is accepted and stored as
`-2^31`. -/
theorem c9_numeric_truncation_witness :
    read_config (Toml.table [("package", Toml.table [("metadata", Toml.table
        [("grubimage", Toml.table [("test-timeout", Toml.int (2 ^ 32))])])])]) =
      .ok { Config.fromBuilder {} with test_timeout := 0 } ∧
    ((2 : Int) ^ 32 - 1 < 2 ^ 32) ∧
    read_config (Toml.table [("package", Toml.table [("metadata", Toml.table
        [("grubimage", Toml.table
          [("test-success-exit-code", Toml.int (2 ^ 31))])])])]) =
      .ok { Config.fromBuilder {} with test_success_exit_code := some (-(2 ^ 31)) } := by
  have h := c9_numeric_truncation (2 ^ 32) (2 ^ 31) (by decide)
  refine ⟨h.1.trans ?_, by decide, h.2.trans ?_⟩
  · norm_num
  · norm_num

/-- The `toml::Value::as_table` test: is the value a table? -/
def Toml.isTable : Toml → Bool
  | .table _ => true
  | _ => false

/-- C10: For every manifest in which the `package.metadata.grubimage` key is present
but its value is not a table, `read_config` fails with the invalid-configuration
error naming that value, rather than falling back to the all-defaults
configuration. -/
theorem c10_nontable_rejected (cargo_toml v : Toml)
    (h : grubimageMetadata cargo_toml = some v) (hv : v.isTable = false) :
    read_config cargo_toml = .error (.invalidConfig v) := by
  cases v <;> simp_all [read_config, read_config_inner, Toml.isTable]

/-- Witness for C10: `grubimage = "fast"` (a string, not a table) is rejected. -/
theorem c10_nontable_rejected_witness :
    read_config (Toml.table [("package", Toml.table [("metadata", Toml.table
        [("grubimage", Toml.str "fast")])])]) =
      .error (.invalidConfig (Toml.str "fast")) :=
  c10_nontable_rejected
    (Toml.table [("package", Toml.table [("metadata", Toml.table
      [("grubimage", Toml.str "fast")])])])
    (Toml.str "fast") rfl rfl
